import Mathlib

/-!
Verification of the external analysis-engine client subsystem of
migtools/editor-extensions: the analyzer RPC client state machine
(`src/vscode/src/client/analyzerClient.ts`) and the binary provisioning
logic (`ensureKaiAnalyzerBinary` in the paths module).

Each definition is a shallow embedding of the corresponding TypeScript
function; stateful and event-driven code is modelled by explicit state
records and effect lists.
-/

namespace EditorExtensions

/-! ## JSON-like values (responses travelling over the RPC transport) -/

/-- A JSON-like value, as delivered by the `vscode-jsonrpc` transport. -/
inductive JValue where
  | vNull : JValue
  | vBool : Bool → JValue
  | vNum : Int → JValue
  | vStr : String → JValue
  | vArr : List JValue → JValue
  | vObj : List (String × JValue) → JValue

/-- Optional-chaining field access, `raw?.field`: `none` models
`undefined` (absent response or absent field or non-object value). -/
def jGet : Option JValue → String → Option JValue
  | some (JValue.vObj fields), k => (fields.find? (fun kv => kv.1 == k)).map (fun kv => kv.2)
  | _, _ => none

/-- Modelled from the spec: `isAnalysisResponse` is imported in
`analyzerClient.ts` from `../utilities`, which is not among the sources.
Spec section 4.6: a response is well-formed only if its rule-set
collection is present and array-shaped. -/
def isAnalysisResponse : Option JValue → Bool
  | some (JValue.vArr _) => true
  | _ => false

/-- The coercion used at `const ruleSets: RuleSet[] = isResponseWellFormed
? rawResponse?.Rulesets : []`: read the array out of an array-shaped
value, empty list otherwise. -/
def asArr : Option JValue → List JValue
  | some (JValue.vArr xs) => xs
  | _ => []

/-! ## Server state, profiles, and the start() guard -/

/-- `ServerState` from `@editor-extensions/shared` as used by the client. -/
inductive ServerState where
  | stopped
  | starting
  | initializing
  | running
  | stopping
  | startFailed
  deriving DecidableEq, Repr

/-- An analysis profile, the fields consulted by `canAnalyze` and
`runAnalysis`. An empty `labelSelector` models a missing/falsy selector. -/
structure Profile where
  id : String
  name : String
  labelSelector : String
  useDefaultRules : Bool
  customRules : List String
  deriving DecidableEq, Repr

/-- The slice of `ExtensionData` read by the client methods. -/
structure ExtData where
  serverState : ServerState
  isAnalyzing : Bool
  profiles : List Profile
  activeProfileId : Option String
  deriving DecidableEq, Repr

/-- `AnalyzerClient.canAnalyze` (analyzerClient.ts lines 753-759):
`!!profile?.labelSelector && (profile?.useDefaultRules ||
profile?.customRules.length > 0)` where `profile` is the active profile. -/
def canAnalyze (profiles : List Profile) (activeProfileId : Option String) : Bool :=
  match profiles.find? (fun p => activeProfileId == some p.id) with
  | some profile =>
      (!(profile.labelSelector == "")) &&
        (profile.useDefaultRules || decide (0 < profile.customRules.length))
  | none => false

/-- Whether `AnalyzerClient.start` (analyzerClient.ts lines 98-113)
reaches `startAnalysisServer` (the spawn). The implementation checks only
`canAnalyze()`; the current `serverState` is never examined before the
spawn (the state precondition is the unimplemented TODO at line 99), so
the first argument is ignored by the code being embedded. -/
def startProceedsToSpawn (_serverState : ServerState)
    (profiles : List Profile) (activeProfileId : Option String) : Bool :=
  canAnalyze profiles activeProfileId

/-! ## stop() and the process exit event (C6) -/

/-- The manager configuration touched by `stop()` and the child process
`exit` event handler: the published server state, whether an RPC
connection object is held, whether a live (not yet exited) child process
is held, and whether an `exit` event is still due to be delivered. -/
structure MgrState where
  serverState : ServerState
  hasConn : Bool
  procAlive : Bool
  pendingExit : Bool
  deriving DecidableEq, Repr

/-- `AnalyzerClient.stop` (analyzerClient.ts lines 568-589): fire
`stopping`, dispose the connection if any, kill the process if its exit
code is still null, and null both fields. Killing a live process makes
the OS deliver the `exit` event later. -/
def stopFn (c : MgrState) : MgrState :=
  { serverState := ServerState.stopping
    hasConn := false
    procAlive := false
    pendingExit := c.pendingExit || c.procAlive }

/-- The `exit` event handler registered in `start()` (analyzerClient.ts
lines 114-133): when the event is delivered it fires `stopped` and nulls
the process field, no matter what the current state is. -/
def deliverExit (c : MgrState) : MgrState :=
  if c.pendingExit then
    { serverState := ServerState.stopped
      hasConn := c.hasConn
      procAlive := false
      pendingExit := false }
  else c

/-! ## The socket connect retry loop (C7) -/

/-- `MAX_RETRIES` in `getSocket` (analyzerClient.ts line 373). -/
def MAX_RETRIES : Nat := 5

/-- `RETRY_DELAY` in `getSocket` (line 374), milliseconds. -/
def RETRY_DELAY_MS : Nat := 2000

/-- The socket state observable by one iteration of the retry loop:
`s.connecting`, `s.readable`, and the `ready` flag set by the socket
`ready` event. -/
structure SockObs where
  connecting : Bool
  readable : Bool
  ready : Bool
  deriving DecidableEq, Repr

/-- The `while` loop of `getSocket` (lines 410-432). `obs k` is the
socket state observed after `k` delays (`obs 0` is the state at the
first loop-condition check). Returns the final `retryCount`. The fuel
starts at `MAX_RETRIES` with `count = 0`, so `count < MAX_RETRIES` holds
exactly while fuel is positive. Note that the loop consults only the
socket: the child process is never examined. -/
def connectLoopGo (obs : Nat → SockObs) : Nat → Nat → Nat
  | count, 0 => count
  | count, fuel + 1 =>
      let o := obs count
      if (o.connecting || !o.readable) && !o.ready then
        let count1 := count + 1
        let o1 := obs count1
        if !o1.connecting && o1.readable then count1
        else connectLoopGo obs count1 fuel
      else count

/-- Final retry count of `getSocket` for a given socket-state trace. -/
def connectAttempts (obs : Nat → SockObs) : Nat :=
  connectLoopGo obs 0 MAX_RETRIES

/-- The retry loop as claim C1-adjacent spec text describes it
("retrying only while not yet connected and the child process has not
exited"): identical to `connectLoopGo` except that it additionally stops
as soon as the child process has exited. Comparison definition following
the words of the spec, to be diffed against `connectLoopGo`. -/
def connectLoopClaimedGo (obs : Nat → SockObs) (procExited : Nat → Bool) :
    Nat → Nat → Nat
  | count, 0 => count
  | count, fuel + 1 =>
      let o := obs count
      if ((o.connecting || !o.readable) && !o.ready) && !procExited count then
        let count1 := count + 1
        let o1 := obs count1
        if !o1.connecting && o1.readable then count1
        else connectLoopClaimedGo obs procExited count1 fuel
      else count

/-- Final retry count of the claimed (spec-worded) loop. -/
def connectAttemptsClaimed (obs : Nat → SockObs) (procExited : Nat → Bool) : Nat :=
  connectLoopClaimedGo obs procExited 0 MAX_RETRIES

/-- The `errorDetails` template literal of `getSocket` (lines 446-448);
the error code of the model carries only the message. -/
def connectErrorDetails : Option String → String
  | some m => " Last error: " ++ m ++ " (unknown code)"
  | none => ""

/-- The `errorMessage` template literal of `getSocket` (line 449). -/
def connectErrorMessage (pipeName : String) (lastError : Option String) : String :=
  "Unable to connect to pipe '" ++ pipeName ++ "' after " ++ toString MAX_RETRIES ++
    " retries." ++ connectErrorDetails lastError ++
    " Please check that the analyzer server started correctly and Java environment is configured properly."

/-- Result of `getSocket`: the connected socket (with the retry count it
took), or the thrown error message. -/
inductive SocketResult where
  | ok : Nat → SocketResult
  | err : String → SocketResult
  deriving DecidableEq, Repr

/-- `AnalyzerClient.getSocket` (lines 369-458) after the event handlers
are installed: run the retry loop; if the socket ended readable, return
it, else throw the assembled error message. `lastError` is the message
of the last socket `error` event, if any fired. -/
def getSocketModel (pipeName : String) (obs : Nat → SockObs)
    (lastError : Option String) : SocketResult :=
  let n := connectAttempts obs
  if (obs n).readable then SocketResult.ok n
  else SocketResult.err (connectErrorMessage pipeName lastError)

/-! ## Request construction (C5) -/

/-- Modelled from the spec: `normalizeFilePath` is imported in
`analyzerClient.ts` from `../utilities/pathUtils`, which is not among
the sources. Spec section 4.6 says excluded paths are doubled with a
path-normalized form "to tolerate separator differences", so the model
rewrites every backslash separator to a forward slash; it is the
identity on paths that contain no backslash. -/
def normalizeFilePath (p : String) : String :=
  String.mk (p.data.map (fun c => if c = Char.ofNat 92 then Char.ofNat 47 else c))

/-- The `requestParams` object built by `runAnalysis`
(analyzerClient.ts lines 651-659). -/
structure AnalyzeParams where
  label_selector : String
  included_paths : Option (List String)
  reset_cache : Bool
  excluded_paths : List String
  deriving DecidableEq, Repr

/-- Construction of `requestParams` (lines 651-659): `included_paths =
filePaths?.map(normalizeFilePath)`, `reset_cache = !(filePaths &&
filePaths.length > 0)` (`filePaths` absent is falsy, an array is truthy
even when empty), `excluded_paths` doubles each ignore entry with its
normalized form. -/
def mkAnalyzeParams (labelSelector : String) (filePaths : Option (List String))
    (ignores : List String) : AnalyzeParams :=
  { label_selector := labelSelector
    included_paths := filePaths.map (fun l => l.map normalizeFilePath)
    reset_cache := !(match filePaths with
      | some l => decide (0 < l.length)
      | none => false)
    excluded_paths := ignores.flatMap (fun p => [p, normalizeFilePath p]) }

/-! ## runAnalysis (C3, C4, C5, C10) -/

/-- Which of the two racing promises settled first
(`Promise.race([sendRequest(...), cancellationPromise])`, lines
678-683): the cancellation signal, or the transport response (carrying
the raw response value, `none` when the transport resolved with
`undefined`). -/
inductive RaceOutcome where
  | cancelledFirst : RaceOutcome
  | responseFirst : Option JValue → RaceOutcome

/-- The path `runAnalysis` took to its return. -/
inductive RunOutcome where
  | skippedNotRunning
  | noProfile
  | noLabelSelector
  | cancelledEarly
  | cancelled
  | malformed
  | completed : List JValue → RunOutcome

/-- Observable behavior of one `runAnalysis` call: how it returned,
whether the `analysis_engine.Analyze` request was sent (and with which
params), whether the response validation (`isAnalysisResponse`) ran,
which rule sets were handed to `loadRuleSets`, and whether
`fireAnalysisStateChange` was invoked at all. -/
structure RunResult where
  outcome : RunOutcome
  sentAnalyze : Option AnalyzeParams
  validated : Bool
  loaded : Option (List JValue)
  touchedAnalyzing : Bool

/-- `AnalyzerClient.runAnalysis` (analyzerClient.ts lines 617-751).
`hasConn` models `this.analyzerRpcConnection` being non-null,
`preCancelled` the `token.isCancellationRequested` check at line 666
(before the request is sent), `race` which promise of the
`Promise.race` settled first, `ignores` the result of
`ignoresToExcludedPaths()`. -/
def runAnalysis (d : ExtData) (hasConn : Bool) (filePaths : Option (List String))
    (preCancelled : Bool) (race : RaceOutcome) (ignores : List String) : RunResult :=
  if d.serverState ≠ ServerState.running ∨ hasConn = false then
    { outcome := RunOutcome.skippedNotRunning
      sentAnalyze := none, validated := false, loaded := none
      touchedAnalyzing := false }
  else
    match d.profiles.find? (fun p => d.activeProfileId == some p.id) with
    | none =>
        { outcome := RunOutcome.noProfile
          sentAnalyze := none, validated := false, loaded := none
          touchedAnalyzing := true }
    | some activeProfile =>
        if activeProfile.labelSelector = "" then
          { outcome := RunOutcome.noLabelSelector
            sentAnalyze := none, validated := false, loaded := none
            touchedAnalyzing := true }
        else
          let requestParams :=
            mkAnalyzeParams activeProfile.labelSelector filePaths ignores
          if preCancelled then
            { outcome := RunOutcome.cancelledEarly
              sentAnalyze := none, validated := false, loaded := none
              touchedAnalyzing := true }
          else
            match race with
            | RaceOutcome.cancelledFirst =>
                { outcome := RunOutcome.cancelled
                  sentAnalyze := some requestParams
                  validated := false, loaded := none
                  touchedAnalyzing := true }
            | RaceOutcome.responseFirst raw =>
                let f := jGet raw "Rulesets"
                if isAnalysisResponse f then
                  { outcome := RunOutcome.completed (asArr f)
                    sentAnalyze := some requestParams
                    validated := true, loaded := some (asArr f)
                    touchedAnalyzing := true }
                else
                  { outcome := RunOutcome.malformed
                    sentAnalyze := some requestParams
                    validated := true, loaded := none
                    touchedAnalyzing := true }

/-! ## notifyFileChanges (C9, C10) -/

/-- A file change payload entry ({path, content, saved}). -/
structure FileChange where
  path : String
  content : String
  saved : Bool
  deriving DecidableEq, Repr

/-- `AnalyzerClient.notifyFileChanges` (analyzerClient.ts lines
595-610): returns the payload of the `analysis_engine.NotifyFileChanges`
request if one was sent, `none` otherwise. -/
def notifyFileChanges (d : ExtData) (hasConn : Bool)
    (fileChanges : List FileChange) : Option (List FileChange) :=
  if d.serverState ≠ ServerState.running ∨ hasConn = false then
    none
  else
    let changes := fileChanges.map (fun c =>
      { path := c.path, content := c.content, saved := c.saved : FileChange })
    if 0 < changes.length then some changes else none

/-! ## Binary provisioning (C1, C8) -/

/-- Filesystem side effects of the verify/extract/install tail of
`ensureKaiAnalyzerBinary`. -/
inductive FsEffect where
  | unlink : String → FsEffect
  | extractEntry : String → String → FsEffect
  | rename : String → String → FsEffect
  | chmod : String → Nat → FsEffect
  deriving DecidableEq, Repr

/-- Outcome of the verify/extract/install tail. -/
inductive ProvisionOutcome where
  | ok
  | checksumMismatch : String → String → ProvisionOutcome
  | noBinaryName
  | binaryNotInZip : String → ProvisionOutcome
  deriving DecidableEq, Repr

/-- The tail of `ensureKaiAnalyzerBinary` after the download succeeded
(part_001 lines 396-461): compare the computed digest against the
manifest digest; on mismatch delete the archive and throw; otherwise
look the expected binary up in the zip (exact name or suffix after a
path separator), extract it next to the target, rename if needed,
delete the archive, and on non-Windows platforms chmod 0o755 the
binary. `kaiDir` is `dirname(kaiAnalyzerPath)`. -/
def verifyAndInstall (tempZipPath kaiAnalyzerPath kaiDir : String)
    (expectedSha256 actualSha256 : String) (zipEntries : List String)
    (expectedBinaryName : Option String) (isWin32 : Bool) :
    ProvisionOutcome × List FsEffect :=
  if actualSha256 ≠ expectedSha256 then
    (ProvisionOutcome.checksumMismatch expectedSha256 actualSha256,
      [FsEffect.unlink tempZipPath])
  else
    match expectedBinaryName with
    | none => (ProvisionOutcome.noBinaryName, [])
    | some name =>
        match zipEntries.find? (fun e => e == name || e.endsWith ("/" ++ name)) with
        | none => (ProvisionOutcome.binaryNotInZip name, [])
        | some entry =>
            let extractedPath := kaiDir ++ "/" ++ entry
            (ProvisionOutcome.ok,
              [FsEffect.extractEntry entry kaiDir] ++
                (if extractedPath ≠ kaiAnalyzerPath then
                  [FsEffect.rename extractedPath kaiAnalyzerPath] else []) ++
                [FsEffect.unlink tempZipPath] ++
                (if ¬isWin32 then [FsEffect.chmod kaiAnalyzerPath 0o755] else []))

/-- Terminal outcome of the front part of `ensureKaiAnalyzerBinary`. -/
inductive EnsureOutcome where
  | okUserPath
  | okExisting
  | errNoFallbackConfig
  | errNoAssetForPlatform
  | proceedToDownload
  deriving DecidableEq, Repr

/-- A network access performed by the provisioner. -/
inductive NetEffect where
  | fetch : String → NetEffect
  deriving DecidableEq, Repr

/-- The front of `ensureKaiAnalyzerBinary` (part_001 lines 87-147), up
to the first network access: a configured and executable user analyzer
path wins with no network access; else an already existing binary at
the expected local path returns immediately with no network access;
else missing fallback configuration or a missing platform asset throws;
else the download path is entered, whose first network accesses are the
checksum-manifest fetch and the archive fetch. -/
def ensureFront (userAnalyzerPath : String) (userPathExecutable : Bool)
    (binaryExists : Bool) (hasFallback : Bool) (hasAsset : Bool)
    (sha256sumUrl downloadUrl : String) : EnsureOutcome × List NetEffect :=
  if userAnalyzerPath ≠ "" ∧ userPathExecutable = true then
    (EnsureOutcome.okUserPath, [])
  else if binaryExists then
    (EnsureOutcome.okExisting, [])
  else if ¬hasFallback then
    (EnsureOutcome.errNoFallbackConfig, [])
  else if ¬hasAsset then
    (EnsureOutcome.errNoAssetForPlatform, [])
  else
    (EnsureOutcome.proceedToDownload,
      [NetEffect.fetch sha256sumUrl, NetEffect.fetch downloadUrl])

/-! ## Concrete fixtures used by witnesses -/

/-- A fully configured analysis profile. -/
def demoProfile : Profile :=
  { id := "p1", name := "Demo", labelSelector := "konveyor.io/target=quarkus"
    useDefaultRules := true, customRules := [] }

/-- Extension data with the server running and `demoProfile` active. -/
def demoData : ExtData :=
  { serverState := ServerState.running, isAnalyzing := false
    profiles := [demoProfile], activeProfileId := some "p1" }

/-- Extension data with the server stopped and `demoProfile` active. -/
def stoppedData : ExtData :=
  { serverState := ServerState.stopped, isAnalyzing := false
    profiles := [demoProfile], activeProfileId := some "p1" }

/-- A socket-state trace that never becomes readable. -/
def obsNeverReady : Nat → SockObs :=
  fun _ => { connecting := true, readable := false, ready := false }

/-- A manager configuration with the server running, a live connection
and a live child process. -/
def demoMgr : MgrState :=
  { serverState := ServerState.running, hasConn := true
    procAlive := true, pendingExit := false }

/-- A single file change payload. -/
def demoChange : FileChange :=
  { path := "src/Foo.java", content := "class Foo {}", saved := true }

/-! ## Helper lemmas -/

/-- String concatenation is associative (component lists concatenate). -/
theorem string_append_assoc (a b c : String) : a ++ b ++ c = a ++ (b ++ c) := by
  cases a with
  | mk da =>
    cases b with
    | mk db =>
      cases c with
      | mk dc =>
        show String.mk (da ++ db ++ dc) = String.mk (da ++ (db ++ dc))
        rw [List.append_assoc]

/-- A value passes `isAnalysisResponse` exactly when it is an
array-shaped value. -/
theorem isAnalysisResponse_iff (f : Option JValue) :
    isAnalysisResponse f = true ↔ ∃ xs, f = some (JValue.vArr xs) := by
  cases f with
  | none => simp [isAnalysisResponse]
  | some v => cases v <;> simp [isAnalysisResponse]

/-! ## Claim theorems -/

/-- C1: when the computed SHA-256 digest of the downloaded archive
differs from the manifest entry for its exact filename, provisioning
deletes the archive and fails with the checksum-mismatch error — its
only filesystem effect is deleting the archive, so no chmod and no
install happen; and the binary receives the executable bit only on
executions where the digest comparison succeeded. -/
theorem checksum_gate_C1 :
    (∀ tz kp kd expSha actSha entries name w, actSha ≠ expSha →
        verifyAndInstall tz kp kd expSha actSha entries name w =
          (ProvisionOutcome.checksumMismatch expSha actSha, [FsEffect.unlink tz])) ∧
    (∀ tz kp kd expSha actSha entries name w p m,
        FsEffect.chmod p m ∈ (verifyAndInstall tz kp kd expSha actSha entries name w).2 →
        actSha = expSha) := by
  constructor
  · intro tz kp kd expSha actSha entries name w h
    simp [verifyAndInstall, h]
  · intro tz kp kd expSha actSha entries name w p m hmem
    by_cases h : actSha = expSha
    · exact h
    · simp [verifyAndInstall, h] at hmem

/-- C1 witness: a concrete mismatching digest pair. -/
theorem checksum_gate_C1_witness :
    verifyAndInstall "kai/tool-linux-amd64.zip" "kai/kai-analyzer-rpc" "kai"
        "abc123" "def456" [] (some "kai-analyzer-rpc") false =
      (ProvisionOutcome.checksumMismatch "abc123" "def456",
        [FsEffect.unlink "kai/tool-linux-amd64.zip"]) :=
  checksum_gate_C1.1 "kai/tool-linux-amd64.zip" "kai/kai-analyzer-rpc" "kai"
    "abc123" "def456" [] (some "kai-analyzer-rpc") false (by decide)

/-- C2: evaluation at the failing input. With a fully configured active
profile, `start()` proceeds to the spawn even when the server state is
already `starting` or `running`: the guard consults only `canAnalyze()`
and never the state, so the rejection of re-entrant calls that the
claim (and the doc comment of `start()`) describes is absent. -/
theorem start_reentrant_spawns_C2 :
    startProceedsToSpawn ServerState.starting [demoProfile] (some "p1") = true ∧
    startProceedsToSpawn ServerState.running [demoProfile] (some "p1") = true := by
  exact ⟨rfl, rfl⟩

/-- C5: `reset_cache` is true exactly when the supplied scope is empty
or absent; `includedPaths = []` yields `reset_cache = true`;
`includedPaths = ["src/Foo.java"]` yields `reset_cache = false` with
`included_paths = ["src/Foo.java"]`. -/
theorem request_scope_C5 :
    (∀ sel ign fp, (mkAnalyzeParams sel fp ign).reset_cache = true ↔
        (fp.getD []).length = 0) ∧
    (∀ sel ign, (mkAnalyzeParams sel (some []) ign).reset_cache = true) ∧
    (∀ sel ign, (mkAnalyzeParams sel (some ["src/Foo.java"]) ign).reset_cache = false ∧
        (mkAnalyzeParams sel (some ["src/Foo.java"]) ign).included_paths =
          some ["src/Foo.java"]) := by
  refine ⟨?_, ?_, ?_⟩
  · intro sel ign fp
    cases fp with
    | none => simp [mkAnalyzeParams]
    | some l => cases l <;> simp [mkAnalyzeParams]
  · intro sel ign
    rfl
  · intro sel ign
    refine ⟨rfl, ?_⟩
    show (some ["src/Foo.java"]).map (fun l => l.map normalizeFilePath) =
      some ["src/Foo.java"]
    decide

/-- C6: `stop()` is idempotent (running it twice leaves exactly the
configuration one run leaves) and is total over every manager
configuration; from `starting`, `initializing`, or `running` with a
live child process, an explicit `stop()` takes the published state to
`stopping`, and the delivery of the resulting process exit event then
takes it to `stopped`. -/
theorem stop_idempotent_C6 :
    (∀ c : MgrState, stopFn (stopFn c) = stopFn c) ∧
    (∀ c : MgrState,
        (c.serverState = ServerState.starting ∨
         c.serverState = ServerState.initializing ∨
         c.serverState = ServerState.running) →
        c.procAlive = true →
        (stopFn c).serverState = ServerState.stopping ∧
        (deliverExit (stopFn c)).serverState = ServerState.stopped) := by
  constructor
  · intro c
    simp [stopFn]
  · intro c hst hp
    exact ⟨rfl, by simp [stopFn, deliverExit, hp]⟩

/-- C6 witness: stopping a running manager with a live process. -/
theorem stop_idempotent_C6_witness :
    (stopFn demoMgr).serverState = ServerState.stopping ∧
    (deliverExit (stopFn demoMgr)).serverState = ServerState.stopped :=
  stop_idempotent_C6.2 demoMgr (Or.inr (Or.inr rfl)) rfl

/-- C8: once the expected binary exists at the expected local path,
`ensureKaiAnalyzerBinary` succeeds (through the user-override or the
existing-binary early return) and performs no network access at all, so
nothing is re-downloaded. -/
theorem ensure_idempotent_C8 (u : String) (ue bx hf ha : Bool) (su du : String)
    (h : bx = true) :
    ((ensureFront u ue bx hf ha su du).1 = EnsureOutcome.okUserPath ∨
     (ensureFront u ue bx hf ha su du).1 = EnsureOutcome.okExisting) ∧
    (ensureFront u ue bx hf ha su du).2 = [] := by
  subst h
  by_cases hu : u ≠ "" ∧ ue = true
  · simp [ensureFront, hu]
  · simp [ensureFront, hu]

/-- C8 witness: no user override, binary already present. -/
theorem ensure_idempotent_C8_witness :
    ((ensureFront "" false true true true "https://r/sha256sum.txt" "https://r/kai.zip").1 =
        EnsureOutcome.okUserPath ∨
     (ensureFront "" false true true true "https://r/sha256sum.txt" "https://r/kai.zip").1 =
        EnsureOutcome.okExisting) ∧
    (ensureFront "" false true true true "https://r/sha256sum.txt" "https://r/kai.zip").2 = [] :=
  ensure_idempotent_C8 "" false true true true "https://r/sha256sum.txt"
    "https://r/kai.zip" rfl

/-- C9: `notifyFileChanges` with an empty change list sends no RPC
request in any state (in particular while running with a live
connection), and a request is sent only when the change list is
non-empty. -/
theorem notify_empty_no_request_C9 :
    (∀ (d : ExtData) (conn : Bool), notifyFileChanges d conn [] = none) ∧
    (∀ (d : ExtData) (conn : Bool) (cs : List FileChange),
        (notifyFileChanges d conn cs).isSome = true → cs ≠ []) := by
  have hempty : ∀ (d : ExtData) (conn : Bool), notifyFileChanges d conn [] = none := by
    intro d conn
    by_cases h : d.serverState ≠ ServerState.running ∨ conn = false <;>
      simp [notifyFileChanges, h]
  refine ⟨hempty, ?_⟩
  intro d conn cs hs hcs
  subst hcs
  rw [hempty d conn] at hs
  simp at hs

/-- C9 witness: a sent request has a non-empty change list. -/
theorem notify_empty_no_request_C9_witness :
    ([demoChange] : List FileChange) ≠ [] :=
  notify_empty_no_request_C9.2 demoData true [demoChange] (by decide)

/-- C10: when the server state is not `running` or no RPC connection
exists, `runAnalysis` and `notifyFileChanges` both return normally with
no request sent; `runAnalysis` additionally never touches the analysis
state flag on this path. -/
theorem skip_when_not_running_C10 (d : ExtData) (conn : Bool)
    (fp : Option (List String)) (pc : Bool) (race : RaceOutcome)
    (ign : List String) (cs : List FileChange)
    (h : d.serverState ≠ ServerState.running ∨ conn = false) :
    runAnalysis d conn fp pc race ign =
      { outcome := RunOutcome.skippedNotRunning, sentAnalyze := none
        validated := false, loaded := none, touchedAnalyzing := false } ∧
    notifyFileChanges d conn cs = none := by
  constructor
  · simp [runAnalysis, h]
  · simp [notifyFileChanges, h]

/-- C3: with the server running and a configured profile, a cancellation
observed before the transport resolves the Analyze request — at the
pre-send check or by winning the promise race — settles the run as
cancelled: response validation never runs and no rule sets are loaded,
regardless of any response that may arrive later. -/
theorem cancellation_short_circuits_C3 (d : ExtData) (fp : Option (List String))
    (ign : List String) (p : Profile) (pc : Bool) (race : RaceOutcome)
    (hs : d.serverState = ServerState.running)
    (hp : d.profiles.find? (fun q => d.activeProfileId == some q.id) = some p)
    (hl : ¬p.labelSelector = "")
    (hc : pc = true ∨ race = RaceOutcome.cancelledFirst) :
    ((runAnalysis d true fp pc race ign).outcome = RunOutcome.cancelledEarly ∨
     (runAnalysis d true fp pc race ign).outcome = RunOutcome.cancelled) ∧
    (runAnalysis d true fp pc race ign).validated = false ∧
    (runAnalysis d true fp pc race ign).loaded = none := by
  rcases hc with hc | hc
  · subst hc
    simp [runAnalysis, hs, hp, hl]
  · subst hc
    cases pc <;> simp [runAnalysis, hs, hp, hl]

/-- C3 witness: cancellation wins the race under the demo data. -/
theorem cancellation_short_circuits_C3_witness :
    ((runAnalysis demoData true none false RaceOutcome.cancelledFirst []).outcome =
        RunOutcome.cancelledEarly ∨
     (runAnalysis demoData true none false RaceOutcome.cancelledFirst []).outcome =
        RunOutcome.cancelled) ∧
    (runAnalysis demoData true none false RaceOutcome.cancelledFirst []).validated = false ∧
    (runAnalysis demoData true none false RaceOutcome.cancelledFirst []).loaded = none :=
  cancellation_short_circuits_C3 demoData none [] demoProfile false
    RaceOutcome.cancelledFirst rfl rfl (by decide) (Or.inr rfl)

/-- Reduction of `runAnalysis` under the demo data when the transport
response wins the race: the call reduces to the validation of the
response's `Rulesets` field. -/
theorem runAnalysis_demo_response (raw : Option JValue) :
    runAnalysis demoData true none false (RaceOutcome.responseFirst raw) [] =
      (if isAnalysisResponse (jGet raw "Rulesets") then
        { outcome := RunOutcome.completed (asArr (jGet raw "Rulesets"))
          sentAnalyze := some (mkAnalyzeParams "konveyor.io/target=quarkus" none [])
          validated := true, loaded := some (asArr (jGet raw "Rulesets"))
          touchedAnalyzing := true }
      else
        { outcome := RunOutcome.malformed
          sentAnalyze := some (mkAnalyzeParams "konveyor.io/target=quarkus" none [])
          validated := true, loaded := none, touchedAnalyzing := true }) := rfl

/-- C4: a response is classified well-formed exactly when its
`Rulesets` field is array-shaped — under a running server the run ends
malformed iff the field is not an array, and ends completed with the
array when it is; `{Rulesets: "not-an-array"}` is malformed, `{Rulesets:
[]}` completes with zero rule sets, and the malformed outcome is
distinct from the zero-incident completion. -/
theorem response_validation_C4 :
    (∀ raw : Option JValue,
        ((runAnalysis demoData true none false (RaceOutcome.responseFirst raw) []).outcome =
            RunOutcome.malformed ↔
          ¬∃ xs, jGet raw "Rulesets" = some (JValue.vArr xs)) ∧
        (∀ xs, jGet raw "Rulesets" = some (JValue.vArr xs) →
          (runAnalysis demoData true none false (RaceOutcome.responseFirst raw) []).outcome =
            RunOutcome.completed xs)) ∧
    (runAnalysis demoData true none false
        (RaceOutcome.responseFirst
          (some (JValue.vObj [("Rulesets", JValue.vStr "not-an-array")]))) []).outcome =
      RunOutcome.malformed ∧
    (runAnalysis demoData true none false
        (RaceOutcome.responseFirst
          (some (JValue.vObj [("Rulesets", JValue.vArr [])]))) []).outcome =
      RunOutcome.completed [] ∧
    RunOutcome.malformed ≠ RunOutcome.completed [] := by
  refine ⟨?_, rfl, rfl, fun h => RunOutcome.noConfusion h⟩
  intro raw
  constructor
  · rw [runAnalysis_demo_response]
    by_cases hw : isAnalysisResponse (jGet raw "Rulesets") = true
    · obtain ⟨xs, hxs⟩ := (isAnalysisResponse_iff _).mp hw
      simp [hxs, isAnalysisResponse, asArr]
    · have hnx : ¬∃ xs, jGet raw "Rulesets" = some (JValue.vArr xs) := fun hx =>
        hw ((isAnalysisResponse_iff _).mpr hx)
      simp [hw, hnx]
  · intro xs hxs
    rw [runAnalysis_demo_response]
    simp [hxs, isAnalysisResponse, asArr]

/-- C4 witness: the empty-array response completes with zero rule sets. -/
theorem response_validation_C4_witness :
    (runAnalysis demoData true none false
        (RaceOutcome.responseFirst
          (some (JValue.vObj [("Rulesets", JValue.vArr [])]))) []).outcome =
      RunOutcome.completed [] :=
  (response_validation_C4.1 (some (JValue.vObj [("Rulesets", JValue.vArr [])]))).2 [] rfl

/-- The retry loop never performs more iterations than its fuel. -/
theorem connectLoopGo_le (obs : Nat → SockObs) :
    ∀ (fuel count : Nat), connectLoopGo obs count fuel ≤ count + fuel := by
  intro fuel
  induction fuel with
  | zero => intro count; simp [connectLoopGo]
  | succ n ih =>
      intro count
      simp only [connectLoopGo]
      split_ifs with h1 h2
      · omega
      · have h := ih (count + 1)
        omega
      · omega

/-- C7 counterexample: on a socket that never becomes readable the
implemented loop performs all 5 retries even in a run where the child
process has exited before the first check (the loop never consults the
process), while the loop as the claim words it — stopping once the
process has exited — performs none. -/
theorem connector_ignores_exit_C7_cex :
    connectAttempts obsNeverReady = 5 ∧
    connectAttemptsClaimed obsNeverReady (fun _ => true) = 0 ∧
    (5 : Nat) ≠ 0 := by
  refine ⟨rfl, rfl, by decide⟩

/-- When the socket never became readable, `getSocket` throws the
assembled error message. -/
theorem getSocketModel_err (p : String) (obs : Nat → SockObs) (e : Option String)
    (hr : (obs (connectAttempts obs)).readable = false) :
    getSocketModel p obs e = SocketResult.err (connectErrorMessage p e) := by
  simp [getSocketModel, hr]

/-- C7 (amended): the connect loop makes at most `MAX_RETRIES` (5)
attempts at the fixed 2-second spacing, retrying while the socket is
not yet connected irrespective of the child process state; when the
socket is still not readable after the loop, `getSocket` fails with an
error message that embeds the last underlying error. -/
theorem connector_exhaustion_C7 (p m : String) (obs : Nat → SockObs)
    (hr : (obs (connectAttempts obs)).readable = false) :
    connectAttempts obs ≤ MAX_RETRIES ∧
    ∃ pre post, getSocketModel p obs (some m) =
      SocketResult.err (pre ++ (m ++ post)) := by
  constructor
  · have h := connectLoopGo_le obs MAX_RETRIES 0
    simpa [connectAttempts] using h
  · refine ⟨"Unable to connect to pipe '" ++ p ++ "' after " ++ toString MAX_RETRIES ++
        " retries." ++ " Last error: ",
      " (unknown code)" ++
        " Please check that the analyzer server started correctly and Java environment is configured properly.",
      ?_⟩
    rw [getSocketModel_err p obs (some m) hr]
    congr 1
    simp only [connectErrorMessage, connectErrorDetails, string_append_assoc]

/-- C7 witness: a never-readable socket with a recorded last error. -/
theorem connector_exhaustion_C7_witness :
    connectAttempts obsNeverReady ≤ MAX_RETRIES ∧
    ∃ pre post, getSocketModel "somepipe" obsNeverReady (some "ENOENT boom") =
      SocketResult.err (pre ++ ("ENOENT boom" ++ post)) :=
  connector_exhaustion_C7 "somepipe" "ENOENT boom" obsNeverReady rfl

/-- C10 witness: a stopped server skips both calls. -/
theorem skip_when_not_running_C10_witness :
    runAnalysis stoppedData true none false RaceOutcome.cancelledFirst [] =
      { outcome := RunOutcome.skippedNotRunning, sentAnalyze := none
        validated := false, loaded := none, touchedAnalyzing := false } ∧
    notifyFileChanges stoppedData true [demoChange] = none :=
  skip_when_not_running_C10 stoppedData true none false RaceOutcome.cancelledFirst []
    [demoChange] (Or.inl (by decide))

end EditorExtensions
